import Mathlib

/-!
Verification of the Snowfall Alert System core against its specification.

This file is a shallow embedding, in Lean 4, of the core logic of the
repository: the weather-source client layer (`src/weather/client.py`) and
the alert decision engine (`src/core/processor.py`).

Embedding conventions:
* Python floats are modelled as `ℚ` (the claims are about comparisons and
  exact arithmetic on snow amounts, not about binary-float rounding).
* `datetime.now()` is modelled by an explicit `now : ℕ` parameter (seconds);
  `timedelta(hours = h)` is `h * 3600` seconds.  Time does not advance
  inside a single modelled call: none of the verified properties depend on
  the clock moving between the statements of one call.
* JSON payloads are the inductive `JsonVal`; Python's `dict.get`,
  indexing, slicing, truthiness, `isinstance` checks and `+` are modelled
  by explicit partial operations returning `Except PyError _`, mirroring
  the exceptions (AttributeError / TypeError / IndexError) the
  corresponding Python expressions can raise.
* The HTTP network is an oracle `net : ℕ → HttpOutcome` giving the outcome
  of the k-th network attempt of one `_make_request` call; `time.sleep`
  is recorded in the returned `sleeps` schedule instead of being executed.
* Python dictionaries used as mutable maps (`cache`, `cache_expiry`,
  `last_alerts`) are modelled as `_ → Option _` functions with pointwise
  update, which preserves exactly their lookup/containment/assignment
  behaviour.
* The `md5` cache key of `_get_cache_key` is modelled as an injective
  serialization of `(endpoint, params sorted by key)`; only determinism
  of the key is used by the claims.
-/

/-- JSON-like values as returned by `response.json()` in the Python code. -/
inductive JsonVal where
  | null
  | num (q : ℚ)
  | str (s : String)
  | arr (elems : List JsonVal)
  | obj (fields : List (String × JsonVal))

/-- The Python exceptions the modelled code can raise.
`requestException e` models `requests.exceptions.RequestException`
carrying an identifier `e` of the underlying transport error; this is the
error class the specification's taxonomy names `UpstreamError`.
`genericError` models the bare `Exception(...)` raised when `_make_request`
exits its loop with no recorded exception (only possible for
`max_retries = 0`). -/
inductive PyError where
  | attributeError
  | typeError
  | indexError
  | keyError
  | requestException (e : ℕ)
  | genericError
deriving DecidableEq

/-- Outcome of one network attempt (`self.session.get` followed by
`raise_for_status` and `.json()`): either a parsed JSON body or a
transport/HTTP failure identified by `e`. -/
inductive HttpOutcome where
  | success (body : JsonVal)
  | failure (e : ℕ)

/-- Python `d.get(key, default)`: on a dict, the stored value or the
default; on any non-dict value an `AttributeError` is raised. -/
def pyGetD (v : JsonVal) (key : String) (default : JsonVal) :
    Except PyError JsonVal :=
  match v with
  | .obj fields => .ok ((fields.lookup key).getD default)
  | _ => .error .attributeError

/-- Python `d.get(key)` (default `None`). -/
def pyGet (v : JsonVal) (key : String) : Except PyError JsonVal :=
  pyGetD v key .null

/-- Python `xs[i]` on a list (`IndexError` when out of range,
`TypeError` on a non-list). -/
def pyIndex (v : JsonVal) (i : ℕ) : Except PyError JsonVal :=
  match v with
  | .arr l =>
    match l.get? i with
    | some x => .ok x
    | none => .error .indexError
  | _ => .error .typeError

/-- Python `xs[:n]` on a list (`TypeError` on a non-list). -/
def pySlice (v : JsonVal) (n : ℕ) : Except PyError JsonVal :=
  match v with
  | .arr l => .ok (.arr (l.take n))
  | _ => .error .typeError

/-- Python truthiness of a JSON value (`bool(v)`). -/
def JsonVal.truthy : JsonVal → Bool
  | .null => false
  | .num q => decide (q ≠ 0)
  | .str s => decide (s ≠ "")
  | .arr l => !l.isEmpty
  | .obj l => !l.isEmpty

/-- Python `isinstance(v, (int, float))`. -/
def JsonVal.isNum : JsonVal → Bool
  | .num _ => true
  | _ => false

/-- Python `a + b` on JSON values: defined for numbers, `TypeError`
otherwise. -/
def pyAdd (a b : JsonVal) : Except PyError JsonVal :=
  match a, b with
  | .num x, .num y => .ok (.num (x + y))
  | _, _ => .error .typeError

/-- Coerce a JSON value to a number, as Python arithmetic on it would
(`TypeError` for non-numbers). -/
def pyToRat (v : JsonVal) : Except PyError ℚ :=
  match v with
  | .num q => .ok q
  | _ => .error .typeError

mutual

/-- Deterministic serialization of a JSON value, standing in for the
`json.dumps` text hashed by `_get_cache_key`. -/
def serVal : JsonVal → String
  | .null => "null"
  | .num q => "n" ++ toString q.num ++ "/" ++ toString q.den
  | .str s => "s" ++ toString s.length ++ ":" ++ s
  | .arr l => "A(" ++ serItems l ++ ")"
  | .obj l => "O(" ++ serFields l ++ ")"

/-- Serialization of a JSON array's elements. -/
def serItems : List JsonVal → String
  | [] => ""
  | v :: vs => serVal v ++ ";" ++ serItems vs

/-- Serialization of a JSON object's fields. -/
def serFields : List (String × JsonVal) → String
  | [] => ""
  | (k, v) :: vs => "f" ++ toString k.length ++ ":" ++ k ++ "=" ++ serVal v ++ ";" ++ serFields vs

end

/-- Lexicographic comparison of character lists by code point. -/
def charsLe : List Char → List Char → Bool
  | [], _ => true
  | _ :: _, [] => false
  | a :: as, b :: bs =>
    if a.toNat < b.toNat then true
    else if b.toNat < a.toNat then false
    else charsLe as bs

/-- Key order used to canonicalize parameters (`json.dumps(params,
sort_keys=True)`). -/
def paramLe (a b : String × JsonVal) : Bool :=
  charsLe a.1.data b.1.data

/-- Insert into a sorted list (helper for `sortParams`). -/
def insertSortedBy (le : α → α → Bool) (x : α) : List α → List α
  | [] => [x]
  | y :: ys => if le x y then x :: y :: ys else y :: insertSortedBy le x ys

/-- Insertion sort with a boolean comparison. -/
def sortBy (le : α → α → Bool) : List α → List α
  | [] => []
  | x :: xs => insertSortedBy le x (sortBy le xs)

/-- `WeatherAPIClient._get_cache_key`: a deterministic key derived from the
endpoint and the canonical (key-sorted) serialization of the parameters,
modelling `md5(f"{endpoint}:{json.dumps(params, sort_keys=True)}")`. -/
def _get_cache_key (endpoint : String) (params : List (String × JsonVal)) :
    String :=
  endpoint ++ ":" ++ serFields (sortBy paramLe params)

/-- Configuration constants from `src/config/settings.py`, as loaded from
the environment. -/
structure Settings where
  THRESHOLD_LIGHT : ℚ
  THRESHOLD_MODERATE : ℚ
  THRESHOLD_HEAVY : ℚ
  VERIFICATION_THRESHOLD : ℚ
  ALERT_COOLDOWN_HOURS : ℕ

/-- The documented defaults: thresholds 2/6/12 inches, verification
tolerance 2.0 inches, cooldown 12 hours. -/
def defaultSettings : Settings :=
  ⟨2, 6, 12, 2, 12⟩

/-- `CACHE_TTL` (seconds), default 300. -/
def CACHE_TTL : ℕ := 300

/-- State of a `WeatherAPIClient` (`src/weather/client.py`, `__init__`):
credentials, base URL, cache flag and the two cache dictionaries. -/
structure WeatherAPIClient where
  api_key : String
  base_url : String
  cache_enabled : Bool
  cache : String → Option JsonVal
  cache_expiry : String → Option ℕ

/-- `WeatherAPIClient.__init__`: fresh client with empty `cache` and
`cache_expiry` dictionaries. -/
def WeatherAPIClient.init (api_key base_url : String) (cache_enabled : Bool) :
    WeatherAPIClient :=
  ⟨api_key, base_url, cache_enabled, fun _ => none, fun _ => none⟩

/-- `OpenWeatherMapClient.__init__` with its base URL and caching on. -/
def OpenWeatherMapClient_init (api_key : String) : WeatherAPIClient :=
  WeatherAPIClient.init api_key "https://api.openweathermap.org/data/2.5" true

/-- `WeatherApiClient.__init__` (WeatherAPI.com) with caching on. -/
def WeatherApiClient_init (api_key : String) : WeatherAPIClient :=
  WeatherAPIClient.init api_key "https://api.weatherapi.com/v1" true

/-- `WeatherAPIClient._is_cache_valid`: the key must be present in both
dictionaries and the current time strictly before the stored expiry. -/
def _is_cache_valid (c : WeatherAPIClient) (now : ℕ) (cache_key : String) :
    Bool :=
  match c.cache cache_key, c.cache_expiry cache_key with
  | some _, some expiry => decide (now < expiry)
  | _, _ => false

/-- `WeatherAPIClient._cache_response`: store the payload and stamp the
entry with expiry `now + CACHE_TTL`. -/
def _cache_response (c : WeatherAPIClient) (now : ℕ) (cache_key : String)
    (response : JsonVal) : WeatherAPIClient :=
  { c with
    cache := fun k => if k = cache_key then some response else c.cache k,
    cache_expiry := fun k =>
      if k = cache_key then some (now + CACHE_TTL) else c.cache_expiry k }

/-- Result of one `_make_request` call: the returned payload or raised
exception, the client state after the call, the number of network attempts
made, and the `time.sleep` durations in order. -/
structure RequestResult where
  result : Except PyError JsonVal
  client : WeatherAPIClient
  network_calls : ℕ
  sleeps : List ℚ

/-- The `while retries < max_retries` loop of `_make_request`.  `retries`
is the loop variable, `fuel = max_retries - retries` counts the remaining
iterations (the loop condition), `last` is `last_exception`.  A successful
attempt caches the response (when caching is enabled) and returns it; a
failed attempt records the exception, and sleeps
`retry_delay * 2 ** (retries - 1)` (after the increment) when further
attempts remain.  On exhaustion the last exception is raised, or a generic
`Exception` if none was recorded. -/
def requestLoop (c : WeatherAPIClient) (now : ℕ) (cache_key : String)
    (net : ℕ → HttpOutcome) (max_retries : ℕ) (retry_delay : ℚ) :
    ℕ → ℕ → Option ℕ → RequestResult
  | _, 0, last =>
    ⟨.error (match last with
             | some e => .requestException e
             | none => .genericError), c, 0, []⟩
  | retries, fuel + 1, _ =>
    match net retries with
    | .success data =>
      ⟨.ok data,
       if c.cache_enabled then _cache_response c now cache_key data else c,
       1, []⟩
    | .failure e =>
      let r := requestLoop c now cache_key net max_retries retry_delay
        (retries + 1) fuel (some e)
      if retries + 1 < max_retries then
        ⟨r.result, r.client, r.network_calls + 1,
         retry_delay * 2 ^ retries :: r.sleeps⟩
      else
        ⟨r.result, r.client, r.network_calls + 1, r.sleeps⟩

/-- `WeatherAPIClient._make_request`: serve a valid cache entry without
touching the network, otherwise run the retry loop. -/
def _make_request (c : WeatherAPIClient) (now : ℕ) (endpoint : String)
    (params : List (String × JsonVal)) (net : ℕ → HttpOutcome)
    (max_retries : ℕ) (retry_delay : ℚ) : RequestResult :=
  let cache_key := _get_cache_key endpoint params
  if c.cache_enabled = true ∧ _is_cache_valid c now cache_key = true then
    ⟨.ok ((c.cache cache_key).getD .null), c, 0, []⟩
  else
    requestLoop c now cache_key net max_retries retry_delay 0 max_retries none

/-- Parameters of the OpenWeatherMap endpoints (`get_current_weather` /
`get_forecast`): `lat`, `lon`, imperial units, API key. -/
def owmParams (lat lon : ℚ) (api_key : String) : List (String × JsonVal) :=
  [("lat", .num lat), ("lon", .num lon), ("units", .str "imperial"),
   ("appid", .str api_key)]

/-- Parameters of the WeatherAPI.com `forecast.json` endpoint
(`WeatherApiClient.get_forecast`): `q = "lat,lon"`, `days`, API key. -/
def waParams (lat lon : ℚ) (days : ℕ) (api_key : String) :
    List (String × JsonVal) :=
  [("q", .str (toString lat ++ "," ++ toString lon)),
   ("days", .num (days : ℚ)), ("key", .str api_key)]

/-- The normalized observation built by `OpenWeatherMapClient.get_snow_data`.
`current_snow` and `forecast_snow` are kept as JSON values because the
Python extraction can (and, for some payload shapes, does) bind them to
non-numeric values. -/
structure OWMSnowData where
  current_snow : JsonVal
  forecast_snow : JsonVal
  current_temp : JsonVal
  conditions : JsonVal
  timestamp : ℕ
  source : String
  resort : Option String

/-- The record built by `WeatherApiClient.get_snow_data`.  `snow_cm` and
`snow_inches` are numeric whenever the record is built at all, because the
division `snow_cm / 2.54` would have raised a `TypeError` otherwise. -/
structure WASnowData where
  snow_cm : ℚ
  snow_inches : ℚ
  current_temp : JsonVal
  conditions : JsonVal
  timestamp : ℕ
  source : String
  resort : Option String

/-- The body of the `for period in forecast_data.get("list", [])[:8]` loop
of `OpenWeatherMapClient.get_snow_data`, accumulating `forecast_snow`:
`period.get("snow", {}).get("3h", 0)` first, then the scalar fallback
guarded by `isinstance(period.get("snow"), (int, float))`. -/
def foldPeriods : List JsonVal → JsonVal → Except PyError JsonVal
  | [], forecast_snow => .ok forecast_snow
  | period :: rest, forecast_snow => do
    let snowField ← pyGetD period "snow" (.obj [])
    let period_snow ← pyGetD snowField "3h" (.num 0)
    let rawSnow ← pyGet period "snow"
    let period_snow :=
      if !period_snow.truthy && rawSnow.isNum then rawSnow else period_snow
    let forecast_snow ← pyAdd forecast_snow period_snow
    foldPeriods rest forecast_snow

/-- The field extraction of `OpenWeatherMapClient.get_snow_data`
(lines 266-292): current snow via `snow["1h"]` with the
`current_data.get("snow", 0)` fallback under falsiness, forecast snow by
summing the first 8 three-hour buckets, then temperature and conditions. -/
def owm_extract (now : ℕ) (current_data forecast_data : JsonVal) :
    Except PyError OWMSnowData := do
  let snowField ← pyGetD current_data "snow" (.obj [])
  let firstTry ← pyGetD snowField "1h" (.num 0)
  let current_snow ←
    if firstTry.truthy then pure firstTry
    else pyGetD current_data "snow" (.num 0)
  let lst ← pyGetD forecast_data "list" (.arr [])
  let lst8 ← pySlice lst 8
  let forecast_snow ←
    match lst8 with
    | .arr periods => foldPeriods periods (.num 0)
    | _ => .error .typeError
  let mainField ← pyGetD current_data "main" (.obj [])
  let current_temp ← pyGetD mainField "temp" (.num 0)
  let weatherList ← pyGetD current_data "weather" (.arr [.obj []])
  let w0 ← pyIndex weatherList 0
  let conditions ← pyGetD w0 "description" (.str "")
  .ok ⟨current_snow, forecast_snow, current_temp, conditions, now,
       "OpenWeatherMap (Free API)", none⟩

/-- `WeatherApiClient.get_snow_data`: one `forecast.json` request, then
`totalsnow_cm` extraction, unit conversion by 2.54 cm/inch, temperature
and condition text.  Any raised exception propagates to the caller. -/
def WeatherApiClient_get_snow_data (c : WeatherAPIClient) (now : ℕ)
    (lat lon : ℚ) (net : ℕ → HttpOutcome) : Except PyError WASnowData := do
  let r := _make_request c now "forecast.json" (waParams lat lon 1 c.api_key)
    net 3 1
  let data ← r.result
  let forecastField ← pyGetD data "forecast" (.obj [])
  let fdays ← pyGetD forecastField "forecastday" (.arr [.obj []])
  let fd0 ← pyIndex fdays 0
  let dayField ← pyGetD fd0 "day" (.obj [])
  let snowCmVal ← pyGetD dayField "totalsnow_cm" (.num 0)
  let snow_cm ← pyToRat snowCmVal
  let snow_inches := snow_cm / (2.54 : ℚ)
  let currentField ← pyGetD data "current" (.obj [])
  let current_temp ← pyGetD currentField "temp_f" (.num 0)
  let condField ← pyGetD currentField "condition" (.obj [])
  let conditions ← pyGetD condField "text" (.str "")
  .ok ⟨snow_cm, snow_inches, current_temp, conditions, now,
       "WeatherAPI.com", none⟩

/-- The `try` block of `OpenWeatherMapClient.get_snow_data`: the current
weather request, the forecast request (on the client state left by the
first), and the extraction.  `netW` / `netF` are the network oracles of
the two requests. -/
def owm_primary_path (c : WeatherAPIClient) (now : ℕ) (lat lon : ℚ)
    (netW netF : ℕ → HttpOutcome) : Except PyError OWMSnowData := do
  let r1 := _make_request c now "weather" (owmParams lat lon c.api_key)
    netW 3 1
  let current_data ← r1.result
  let r2 := _make_request r1.client now "forecast"
    (owmParams lat lon c.api_key) netF 3 1
  let forecast_data ← r2.result
  owm_extract now current_data forecast_data

/-- `OpenWeatherMapClient.get_snow_data` with its two `except` fallbacks:
on any primary failure, fetch through a freshly constructed
`WeatherApiClient` and re-label the source; if that also fails, return the
zeroed default record. -/
def OpenWeatherMapClient_get_snow_data (c : WeatherAPIClient)
    (wa_key : String) (now : ℕ) (lat lon : ℚ)
    (netW netF netWA : ℕ → HttpOutcome) : OWMSnowData :=
  match owm_primary_path c now lat lon netW netF with
  | .ok obs => obs
  | .error _ =>
    match WeatherApiClient_get_snow_data (WeatherApiClient_init wa_key) now
        lat lon netWA with
    | .ok secondary_data =>
      ⟨.num secondary_data.snow_inches, .num 0, secondary_data.current_temp,
       secondary_data.conditions, now, "Fallback: WeatherAPI.com", none⟩
    | .error _ =>
      ⟨.num 0, .num 0, .num 0, .str "Error fetching data", now,
       "Default values (API errors)", none⟩

/-- Module-level `get_resort_snow_data`: constructs a brand-new
`OpenWeatherMapClient` (empty caches), fetches, and tags the record with
the resort name.  `owm_key` / `wa_key` are the environment API keys. -/
def get_resort_snow_data (resort_name owm_key wa_key : String) (now : ℕ)
    (lat lon : ℚ) (netW netF netWA : ℕ → HttpOutcome) : OWMSnowData :=
  let snow_data := OpenWeatherMapClient_get_snow_data
    (OpenWeatherMapClient_init owm_key) wa_key now lat lon netW netF netWA
  { snow_data with resort := some resort_name }

/-- Module-level `verify_with_secondary_source`: constructs a brand-new
`WeatherApiClient`, fetches the secondary observation, and compares the
two amounts within `VERIFICATION_THRESHOLD`.  Any exception is caught and
mapped to `(false, none)`.  (The fixed `time.sleep(1)` pacing delay has no
modelled effect.) -/
def verify_with_secondary_source (s : Settings) (wa_key : String) (now : ℕ)
    (resort_name : String) (lat lon primary_snow_amount : ℚ)
    (net : ℕ → HttpOutcome) : Bool × Option WASnowData :=
  match WeatherApiClient_get_snow_data (WeatherApiClient_init wa_key) now
      lat lon net with
  | .error _ => (false, none)
  | .ok sd =>
    let secondary_data := { sd with resort := some resort_name }
    if |primary_snow_amount - secondary_data.snow_inches| ≤
        s.VERIFICATION_THRESHOLD then
      (true, some secondary_data)
    else
      (false, some secondary_data)

/-- State of a `SnowfallProcessor`: the `last_alerts` dict of dicts,
mapping resort name to a dict from category to last alert time. -/
structure SnowfallProcessor where
  last_alerts : String → Option (String → Option ℕ)

/-- The stored last-alert time for a `(resort, category)` pair
(`self.last_alerts[resort_name][category]` when both keys are present). -/
def getLastAlert (p : SnowfallProcessor) (resort_name category : String) :
    Option ℕ :=
  match p.last_alerts resort_name with
  | none => none
  | some inner => inner category

/-- `SnowfallProcessor.is_in_cooldown`: false when either dict key is
missing, otherwise `now < last_time + timedelta(hours=ALERT_COOLDOWN_HOURS)`. -/
def is_in_cooldown (s : Settings) (p : SnowfallProcessor) (now : ℕ)
    (resort_name category : String) : Bool :=
  match p.last_alerts resort_name with
  | none => false
  | some inner =>
    match inner category with
    | none => false
    | some last_time =>
      decide (now < last_time + s.ALERT_COOLDOWN_HOURS * 3600)

/-- `SnowfallProcessor.update_last_alert_time`: create the inner dict if
the resort is missing, then set `last_alerts[resort][category] = now`. -/
def update_last_alert_time (p : SnowfallProcessor) (now : ℕ)
    (resort_name category : String) : SnowfallProcessor :=
  let inner := (p.last_alerts resort_name).getD (fun _ => none)
  ⟨fun r =>
    if r = resort_name then
      some (fun c => if c = category then some now else inner c)
    else p.last_alerts r⟩

/-- `SnowfallProcessor.determine_alert_category`: thresholds checked from
highest to lowest with `>=`. -/
def determine_alert_category (s : Settings) (snow_amount : ℚ) : String :=
  if snow_amount ≥ s.THRESHOLD_HEAVY then "heavy"
  else if snow_amount ≥ s.THRESHOLD_MODERATE then "moderate"
  else if snow_amount ≥ s.THRESHOLD_LIGHT then "light"
  else "none"

/-- Reference classification, written from the specification's words
("`amount >= heavy_threshold → heavy`; else `>= moderate_threshold →
moderate`; else `>= light_threshold → light`; else `none`"), to be
compared with the implementation's `determine_alert_category`. -/
def classify_ref (s : Settings) (amount : ℚ) : String :=
  if s.THRESHOLD_HEAVY ≤ amount then "heavy"
  else if s.THRESHOLD_MODERATE ≤ amount then "moderate"
  else if s.THRESHOLD_LIGHT ≤ amount then "light"
  else "none"

/-- Severity rank of a category name, for stating monotonicity of the
classification. -/
def categoryRank : String → ℕ
  | "light" => 1
  | "moderate" => 2
  | "heavy" => 3
  | _ => 0

/-- The time-window record built by
`SnowfallProcessor.calculate_time_window_data`. -/
structure TimeWindowData where
  current_24h : ℚ
  forecast_24h : ℚ
  total_48h : ℚ

/-- `SnowfallProcessor.calculate_time_window_data` on the two snow fields
of the fetched observation. -/
def calculate_time_window_data (current_snow forecast_snow : ℚ) :
    TimeWindowData :=
  ⟨current_snow, forecast_snow, current_snow + forecast_snow⟩

/-- `SnowfallProcessor.should_trigger_alert`: verification gate, category
gate, cooldown gate, in that order. -/
def should_trigger_alert (s : Settings) (p : SnowfallProcessor) (now : ℕ)
    (resort_name : String) (snow_data : TimeWindowData)
    (is_verified : Bool) : Bool × Option String :=
  if snow_data.current_24h ≥ s.THRESHOLD_LIGHT ∧ is_verified = false then
    (false, none)
  else
    let category := determine_alert_category s snow_data.current_24h
    if category = "none" then (false, none)
    else if is_in_cooldown s p now resort_name category then (false, none)
    else (true, some category)

/-- Helper: `is_in_cooldown` expressed through the `(resort, category)`
lookup `getLastAlert`. -/
theorem is_in_cooldown_getLastAlert (s : Settings) (p : SnowfallProcessor)
    (now : ℕ) (resort_name category : String) :
    is_in_cooldown s p now resort_name category =
      match getLastAlert p resort_name category with
      | none => false
      | some last_time =>
        decide (now < last_time + s.ALERT_COOLDOWN_HOURS * 3600) := by
  unfold is_in_cooldown getLastAlert
  cases p.last_alerts resort_name with
  | none => rfl
  | some inner => cases inner category <;> rfl

/-- Helper: after `update_last_alert_time`, the updated pair holds the new
time. -/
theorem getLastAlert_update_self (p : SnowfallProcessor) (t : ℕ)
    (resort_name category : String) :
    getLastAlert (update_last_alert_time p t resort_name category)
      resort_name category = some t := by
  unfold getLastAlert update_last_alert_time
  simp

/-- Helper: `update_last_alert_time` leaves every other
`(resort, category)` pair's stored time unchanged. -/
theorem getLastAlert_update_ne (p : SnowfallProcessor) (t : ℕ)
    (resort_name category r c : String)
    (h : ¬ (r = resort_name ∧ c = category)) :
    getLastAlert (update_last_alert_time p t resort_name category) r c =
      getLastAlert p r c := by
  unfold getLastAlert update_last_alert_time
  by_cases hr : r = resort_name
  · subst hr
    have hc : c ≠ category := fun hc => h ⟨rfl, hc⟩
    cases hpl : p.last_alerts r with
    | none => simp [hpl, hc]
    | some inner => simp [hpl, hc]
  · simp only [if_neg hr]

/-- C1: for every resort and snow-data record with
`current_24h >= THRESHOLD_LIGHT`, an unverified observation yields
`(false, none)` from `should_trigger_alert`, whatever the processor state,
the time and the category the amount would classify to. -/
theorem should_trigger_alert_unverified_suppressed (s : Settings)
    (p : SnowfallProcessor) (now : ℕ) (resort_name : String)
    (snow_data : TimeWindowData)
    (h : snow_data.current_24h ≥ s.THRESHOLD_LIGHT) :
    should_trigger_alert s p now resort_name snow_data false =
      (false, none) := by
  simp [should_trigger_alert, h]

/-- Witness for C1: an unverified 5-inch reading (above the default light
threshold 2) triggers nothing. -/
theorem should_trigger_alert_unverified_suppressed_witness :
    should_trigger_alert defaultSettings ⟨fun _ => none⟩ 0 "Park City"
      ⟨5, 0, 5⟩ false = (false, none) :=
  should_trigger_alert_unverified_suppressed defaultSettings ⟨fun _ => none⟩
    0 "Park City" ⟨5, 0, 5⟩ (by decide)

/-- C2: `determine_alert_category` equals the specification's piecewise
reference classification; it is monotonic non-decreasing; the heavy
threshold itself classifies as heavy (ties to the higher category); and
any amount `heavy_threshold - ε` with `0 < ε ≤ heavy - moderate` does not
classify as heavy. -/
theorem determine_alert_category_piecewise (s : Settings)
    (h1 : s.THRESHOLD_LIGHT ≤ s.THRESHOLD_MODERATE)
    (h2 : s.THRESHOLD_MODERATE ≤ s.THRESHOLD_HEAVY) :
    (∀ a : ℚ, determine_alert_category s a = classify_ref s a) ∧
    (∀ a b : ℚ, a ≤ b →
      categoryRank (determine_alert_category s a) ≤
        categoryRank (determine_alert_category s b)) ∧
    determine_alert_category s s.THRESHOLD_HEAVY = "heavy" ∧
    (∀ ε : ℚ, 0 < ε → ε ≤ s.THRESHOLD_HEAVY - s.THRESHOLD_MODERATE →
      determine_alert_category s (s.THRESHOLD_HEAVY - ε) ≠ "heavy") := by
  refine ⟨?_, ?_, ?_, ?_⟩
  · intro a
    unfold determine_alert_category classify_ref
    split_ifs <;> first | rfl | (exfalso; linarith)
  · intro a b hab
    unfold determine_alert_category
    split_ifs <;> first | decide | (exfalso; linarith)
  · unfold determine_alert_category
    rw [if_pos (le_refl s.THRESHOLD_HEAVY)]
  · intro ε hε _
    unfold determine_alert_category
    have hlt : ¬ (s.THRESHOLD_HEAVY - ε ≥ s.THRESHOLD_HEAVY) := by linarith
    rw [if_neg hlt]
    split_ifs <;> decide

/-- Witness for C2 at the default thresholds: exactly 12 inches is
`heavy`. -/
theorem determine_alert_category_piecewise_witness :
    determine_alert_category defaultSettings
      defaultSettings.THRESHOLD_HEAVY = "heavy" :=
  (determine_alert_category_piecewise defaultSettings (by decide)
    (by decide)).2.2.1

/-- C3: for an otherwise-eligible alert (verified, category not `none`)
whose pair has a recorded last-alert time, `should_trigger_alert`
suppresses exactly when `now < last_time + cooldown`; and after
`update_last_alert_time` stamps time `t`, the pair is in cooldown at `t`
(for any positive cooldown) and out of cooldown at any `t2 ≥ t +
cooldown`. -/
theorem cooldown_gate_spec (s : Settings) (p : SnowfallProcessor)
    (now t last_time : ℕ) (resort_name category : String)
    (snow_data : TimeWindowData)
    (hcat : determine_alert_category s snow_data.current_24h = category)
    (hne : category ≠ "none")
    (hlook : getLastAlert p resort_name category = some last_time) :
    ((should_trigger_alert s p now resort_name snow_data true).1 = false ↔
      now < last_time + s.ALERT_COOLDOWN_HOURS * 3600) ∧
    (0 < s.ALERT_COOLDOWN_HOURS →
      is_in_cooldown s (update_last_alert_time p t resort_name category) t
        resort_name category = true) ∧
    (∀ t2 : ℕ, t + s.ALERT_COOLDOWN_HOURS * 3600 ≤ t2 →
      is_in_cooldown s (update_last_alert_time p t resort_name category) t2
        resort_name category = false) := by
  have hcool : is_in_cooldown s p now resort_name category =
      decide (now < last_time + s.ALERT_COOLDOWN_HOURS * 3600) := by
    rw [is_in_cooldown_getLastAlert, hlook]
  refine ⟨?_, ?_, ?_⟩
  · unfold should_trigger_alert
    have hv : ¬ (snow_data.current_24h ≥ s.THRESHOLD_LIGHT ∧
        (true : Bool) = false) := by
      rintro ⟨-, hbad⟩
      exact absurd hbad (by decide)
    rw [if_neg hv]
    simp only [hcat, if_neg hne, hcool]
    by_cases hnow : now < last_time + s.ALERT_COOLDOWN_HOURS * 3600 <;>
      simp [hnow]
  · intro hpos
    rw [is_in_cooldown_getLastAlert, getLastAlert_update_self]
    simp only [decide_eq_true_eq]
    omega
  · intro t2 h2
    rw [is_in_cooldown_getLastAlert, getLastAlert_update_self]
    simp only [decide_eq_false_iff_not]
    omega

/-- Witness for C3: with a "light" alert recorded at time 1000 for
"Alta", a verified 5-inch reading at time 2000 is still in the default
12-hour cooldown. -/
theorem cooldown_gate_spec_witness :
    ((should_trigger_alert defaultSettings
        ⟨fun r => if r = "Alta" then
            some (fun c => if c = "light" then some 1000 else none)
          else none⟩ 2000 "Alta" ⟨5, 0, 5⟩ true).1 = false ↔
      2000 < 1000 + 12 * 3600) ∧
    (0 < (12 : ℕ) →
      is_in_cooldown defaultSettings
        (update_last_alert_time
          ⟨fun r => if r = "Alta" then
              some (fun c => if c = "light" then some 1000 else none)
            else none⟩ 7 "Alta" "light") 7 "Alta" "light" = true) ∧
    (∀ t2 : ℕ, 7 + 12 * 3600 ≤ t2 →
      is_in_cooldown defaultSettings
        (update_last_alert_time
          ⟨fun r => if r = "Alta" then
              some (fun c => if c = "light" then some 1000 else none)
            else none⟩ 7 "Alta" "light") t2 "Alta" "light" = false) :=
  cooldown_gate_spec defaultSettings
    ⟨fun r => if r = "Alta" then
        some (fun c => if c = "light" then some 1000 else none)
      else none⟩ 2000 7 1000 "Alta" "light" ⟨5, 0, 5⟩ (by decide) (by decide)
    rfl

/-- C7: updating the last-alert time for one `(resort, category)` pair
changes no other pair's stored time nor its cooldown status; in
particular a `light` alert does not start a cooldown for `moderate` on
the same resort. -/
theorem update_last_alert_time_frame (p : SnowfallProcessor) (t : ℕ)
    (resort_name category r c : String)
    (h : ¬ (r = resort_name ∧ c = category)) :
    getLastAlert (update_last_alert_time p t resort_name category) r c =
      getLastAlert p r c ∧
    (∀ (s : Settings) (now : ℕ),
      is_in_cooldown s (update_last_alert_time p t resort_name category)
        now r c = is_in_cooldown s p now r c) := by
  refine ⟨getLastAlert_update_ne p t resort_name category r c h, ?_⟩
  intro s now
  rw [is_in_cooldown_getLastAlert, is_in_cooldown_getLastAlert,
    getLastAlert_update_ne p t resort_name category r c h]

/-- Witness for C7: a `light` alert stamped on "Alta" leaves the
`moderate` pair of "Alta" untouched. -/
theorem update_last_alert_time_frame_witness :
    getLastAlert (update_last_alert_time ⟨fun _ => none⟩ 50 "Alta" "light")
      "Alta" "moderate" = getLastAlert ⟨fun _ => none⟩ "Alta" "moderate" ∧
    (∀ (s : Settings) (now : ℕ),
      is_in_cooldown s (update_last_alert_time ⟨fun _ => none⟩ 50 "Alta"
        "light") now "Alta" "moderate" =
        is_in_cooldown s ⟨fun _ => none⟩ now "Alta" "moderate") :=
  update_last_alert_time_frame ⟨fun _ => none⟩ 50 "Alta" "light" "Alta"
    "moderate" (by simp)

/-- Helper: when every attempt fails, the retry loop makes exactly the
remaining number of attempts, sleeps the doubling schedule between them,
raises the last attempt's exception, and leaves the client unchanged. -/
theorem requestLoop_all_fail (c : WeatherAPIClient) (now : ℕ) (key : String)
    (net : ℕ → HttpOutcome) (m : ℕ) (d : ℚ) (err : ℕ → ℕ)
    (hnet : ∀ k, k < m → net k = .failure (err k)) :
    ∀ fuel retries last, retries + fuel = m → 0 < fuel →
      requestLoop c now key net m d retries fuel last =
        ⟨.error (.requestException (err (m - 1))), c, fuel,
          (List.range' retries (fuel - 1)).map fun i => d * 2 ^ i⟩ := by
  intro fuel
  induction fuel with
  | zero =>
    intro r last _ hpos
    exact absurd hpos (by omega)
  | succ f ih =>
    intro r last hm _
    have hr : r < m := by omega
    simp only [requestLoop, hnet r hr]
    cases f with
    | zero =>
      have hnlt : ¬ (r + 1 < m) := by omega
      have hm1 : m - 1 = r := by omega
      simp [requestLoop, hnlt, hm1]
    | succ f2 =>
      have hlt : r + 1 < m := by omega
      rw [ih (r + 1) (some (err r)) (by omega) (by omega)]
      simp [hlt, List.range'_succ]

/-- Helper: with at least one loop iteration remaining, the retry loop
always makes at least one network attempt. -/
theorem requestLoop_calls_pos (c : WeatherAPIClient) (now : ℕ) (key : String)
    (net : ℕ → HttpOutcome) (m : ℕ) (d : ℚ) (retries fuel : ℕ)
    (last : Option ℕ) (hpos : 0 < fuel) :
    0 < (requestLoop c now key net m d retries fuel last).network_calls := by
  cases fuel with
  | zero => exact absurd hpos (by omega)
  | succ f =>
    cases hout : net retries with
    | success data => simp [requestLoop, hout]
    | failure e =>
      simp only [requestLoop, hout]
      split <;> simp

/-- Helper: whenever the retry loop returns a payload and caching is
enabled, the resulting client is exactly the original with that payload
cached under the request key. -/
theorem requestLoop_ok_caches (c : WeatherAPIClient) (now : ℕ) (key : String)
    (net : ℕ → HttpOutcome) (m : ℕ) (d : ℚ) (hen : c.cache_enabled = true) :
    ∀ fuel retries last data,
      (requestLoop c now key net m d retries fuel last).result = .ok data →
      (requestLoop c now key net m d retries fuel last).client =
        _cache_response c now key data := by
  intro fuel
  induction fuel with
  | zero =>
    intro r last data hres
    simp [requestLoop] at hres
  | succ f ih =>
    intro r last data hres
    cases hout : net r with
    | success d0 =>
      simp only [requestLoop, hout] at hres ⊢
      simp only [Except.ok.injEq] at hres
      rw [hen]
      simp [hres]
    | failure e =>
      simp only [requestLoop, hout] at hres ⊢
      by_cases hlt : r + 1 < m <;> simp [hlt] at hres ⊢ <;>
        exact ih _ _ _ hres

/-- C4: when every network attempt fails, `_make_request` (reached past
the cache) makes exactly `max_retries` attempts, sleeps
`retry_delay * 2 ^ (k - 2)` before attempt `k` for each `2 ≤ k ≤
max_retries`, and raises the final attempt's underlying transport error
(the propagated failure the specification names `UpstreamError`). -/
theorem make_request_retry_exhaustion (c : WeatherAPIClient) (now : ℕ)
    (endpoint : String) (params : List (String × JsonVal))
    (net : ℕ → HttpOutcome) (err : ℕ → ℕ) (max_retries : ℕ)
    (retry_delay : ℚ) (hmr : 0 < max_retries)
    (hmiss : ¬ (c.cache_enabled = true ∧
      _is_cache_valid c now (_get_cache_key endpoint params) = true))
    (hnet : ∀ k, k < max_retries → net k = .failure (err k)) :
    (_make_request c now endpoint params net max_retries
        retry_delay).result =
      .error (.requestException (err (max_retries - 1))) ∧
    (_make_request c now endpoint params net max_retries
        retry_delay).network_calls = max_retries ∧
    (∀ k, 2 ≤ k → k ≤ max_retries →
      (_make_request c now endpoint params net max_retries
          retry_delay).sleeps[k - 2]? =
        some (retry_delay * 2 ^ (k - 2))) ∧
    (_make_request c now endpoint params net max_retries
        retry_delay).sleeps.length = max_retries - 1 := by
  have hmk : _make_request c now endpoint params net max_retries retry_delay
      = requestLoop c now (_get_cache_key endpoint params) net max_retries
        retry_delay 0 max_retries none := by
    unfold _make_request
    rw [if_neg hmiss]
  rw [hmk, requestLoop_all_fail c now (_get_cache_key endpoint params) net
    max_retries retry_delay err hnet max_retries 0 none (by omega) hmr]
  refine ⟨rfl, rfl, ?_, ?_⟩
  · intro k hk2 hkm
    have hlt : k - 2 < max_retries - 1 := by omega
    simp [List.getElem?_map, List.getElem?_range', hlt]
  · simp

/-- Witness for C4: three consecutive transport failures (error id 7)
with the default `max_retries = 3` and `retry_delay = 1` on a fresh
client: three attempts, the doubling sleep schedule, and the last error
propagated. -/
theorem make_request_retry_exhaustion_witness :
    (_make_request (OpenWeatherMapClient_init "k") 0 "weather" []
        (fun _ => .failure 7) 3 1).result =
      .error (.requestException 7) ∧
    (_make_request (OpenWeatherMapClient_init "k") 0 "weather" []
        (fun _ => .failure 7) 3 1).network_calls = 3 ∧
    (∀ k, 2 ≤ k → k ≤ 3 →
      (_make_request (OpenWeatherMapClient_init "k") 0 "weather" []
          (fun _ => .failure 7) 3 1).sleeps[k - 2]? =
        some (1 * 2 ^ (k - 2))) ∧
    (_make_request (OpenWeatherMapClient_init "k") 0 "weather" []
        (fun _ => .failure 7) 3 1).sleeps.length = 3 - 1 :=
  make_request_retry_exhaustion (OpenWeatherMapClient_init "k") 0 "weather"
    [] (fun _ => .failure 7) (fun _ => 7) 3 1 (by omega) (by decide)
    (fun _ _ => rfl)

/-- C8: with caching enabled, a valid (unexpired) entry for the request's
key is served with zero network attempts; an expired entry is never
served (the network is attempted); and every payload obtained from the
network is stored under the key with expiry `now + CACHE_TTL`. -/
theorem make_request_cache_policy (c : WeatherAPIClient) (now : ℕ)
    (endpoint : String) (params : List (String × JsonVal))
    (net : ℕ → HttpOutcome) (max_retries : ℕ) (retry_delay : ℚ)
    (hen : c.cache_enabled = true) :
    (∀ payload,
      _is_cache_valid c now (_get_cache_key endpoint params) = true →
      c.cache (_get_cache_key endpoint params) = some payload →
      (_make_request c now endpoint params net max_retries
          retry_delay).result = .ok payload ∧
      (_make_request c now endpoint params net max_retries
          retry_delay).network_calls = 0) ∧
    (∀ expiry, c.cache_expiry (_get_cache_key endpoint params) = some expiry
      → expiry ≤ now → 0 < max_retries →
      0 < (_make_request c now endpoint params net max_retries
          retry_delay).network_calls) ∧
    (∀ data,
      (_make_request c now endpoint params net max_retries
          retry_delay).result = .ok data →
      (_make_request c now endpoint params net max_retries
          retry_delay).network_calls ≠ 0 →
      (_make_request c now endpoint params net max_retries
          retry_delay).client.cache (_get_cache_key endpoint params) =
        some data ∧
      (_make_request c now endpoint params net max_retries
          retry_delay).client.cache_expiry (_get_cache_key endpoint params)
        = some (now + CACHE_TTL)) := by
  refine ⟨?_, ?_, ?_⟩
  · intro payload hvalid hcache
    unfold _make_request
    rw [if_pos ⟨hen, hvalid⟩]
    simp [hcache]
  · intro expiry hexp hpast hmr
    have hnv : _is_cache_valid c now (_get_cache_key endpoint params) =
        false := by
      unfold _is_cache_valid
      rw [hexp]
      cases c.cache (_get_cache_key endpoint params) with
      | none => rfl
      | some v => simp; omega
    unfold _make_request
    rw [if_neg (by simp [hnv])]
    exact requestLoop_calls_pos c now (_get_cache_key endpoint params) net
      max_retries retry_delay 0 max_retries none hmr
  · intro data hres hcalls
    by_cases hcv : c.cache_enabled = true ∧
        _is_cache_valid c now (_get_cache_key endpoint params) = true
    · exfalso
      apply hcalls
      unfold _make_request
      rw [if_pos hcv]
    · have hmk : _make_request c now endpoint params net max_retries
          retry_delay = requestLoop c now (_get_cache_key endpoint params)
            net max_retries retry_delay 0 max_retries none := by
        unfold _make_request
        rw [if_neg hcv]
      rw [hmk] at hres ⊢
      rw [requestLoop_ok_caches c now (_get_cache_key endpoint params) net
        max_retries retry_delay hen max_retries 0 none data hres]
      unfold _cache_response
      simp

/-- Witness for C8: a client whose cache holds an entry valid until time
10 serves it at time 5 with zero network attempts, even though the
network oracle would fail. -/
theorem make_request_cache_policy_witness :
    (_make_request ⟨"k", "u", true, fun _ => some (.str "cached"),
        fun _ => some 10⟩ 5 "weather" [] (fun _ => .failure 0) 3
        1).result = .ok (.str "cached") ∧
    (_make_request ⟨"k", "u", true, fun _ => some (.str "cached"),
        fun _ => some 10⟩ 5 "weather" [] (fun _ => .failure 0) 3
        1).network_calls = 0 :=
  (make_request_cache_policy ⟨"k", "u", true, fun _ => some (.str "cached"),
      fun _ => some 10⟩ 5 "weather" [] (fun _ => .failure 0) 3 1 rfl).1
    (.str "cached") (by decide) rfl

/-- C5: `verify_with_secondary_source` is total (never raises): a failed
or unparsable secondary fetch yields `(false, none)`; a successful fetch
yields the secondary observation together with an agreement flag that is
true exactly when `|primary - secondary| ≤ VERIFICATION_THRESHOLD`
(absolute tolerance only). -/
theorem verify_with_secondary_source_spec (s : Settings) (wa_key : String)
    (now : ℕ) (resort_name : String) (lat lon primary : ℚ)
    (net : ℕ → HttpOutcome) :
    (∀ e, WeatherApiClient_get_snow_data (WeatherApiClient_init wa_key) now
        lat lon net = .error e →
      verify_with_secondary_source s wa_key now resort_name lat lon primary
        net = (false, none)) ∧
    (∀ sd, WeatherApiClient_get_snow_data (WeatherApiClient_init wa_key) now
        lat lon net = .ok sd →
      verify_with_secondary_source s wa_key now resort_name lat lon primary
        net =
        (decide (|primary - sd.snow_inches| ≤ s.VERIFICATION_THRESHOLD),
         some { sd with resort := some resort_name })) ∧
    ((verify_with_secondary_source s wa_key now resort_name lat lon primary
        net).1 = true ↔
      ∃ sd, WeatherApiClient_get_snow_data (WeatherApiClient_init wa_key)
          now lat lon net = .ok sd ∧
        |primary - sd.snow_inches| ≤ s.VERIFICATION_THRESHOLD) := by
  unfold verify_with_secondary_source
  cases hres : WeatherApiClient_get_snow_data (WeatherApiClient_init wa_key)
      now lat lon net with
  | error e =>
    refine ⟨fun _ _ => rfl, fun sd hsd => by simp at hsd, ?_⟩
    simp
  | ok sd =>
    refine ⟨fun e he => by simp at he, ?_, ?_⟩
    · intro sd2 hsd2
      simp only [Except.ok.injEq] at hsd2
      subst hsd2
      by_cases hc : |primary - sd.snow_inches| ≤ s.VERIFICATION_THRESHOLD <;>
        simp [hc]
    · by_cases hc : |primary - sd.snow_inches| ≤ s.VERIFICATION_THRESHOLD <;>
        simp [hc]

/-- Witness for C5: with every network attempt failing, verification is
silently `(false, none)`. -/
theorem verify_with_secondary_source_spec_witness :
    verify_with_secondary_source defaultSettings "wk" 0 "Alta" 40 111 5
      (fun _ => .failure 9) = (false, none) :=
  (verify_with_secondary_source_spec defaultSettings "wk" 0 "Alta" 40 111 5
    (fun _ => .failure 9)).1 (.requestException 9) rfl

/-- C9: the module-level entry points build brand-new clients: both
constructed clients have empty `cache` and `cache_expiry` maps, no key is
ever cache-valid on them, `get_resort_snow_data` and
`verify_with_secondary_source` are exactly their bodies applied to such
freshly constructed clients, and the first request of an entry point
always reaches the network (never a cache). -/
theorem entry_points_fresh_clients (owm_key wa_key : String) :
    (∀ k, (OpenWeatherMapClient_init owm_key).cache k = none ∧
      (OpenWeatherMapClient_init owm_key).cache_expiry k = none) ∧
    (∀ k, (WeatherApiClient_init wa_key).cache k = none ∧
      (WeatherApiClient_init wa_key).cache_expiry k = none) ∧
    (∀ now k, _is_cache_valid (OpenWeatherMapClient_init owm_key) now k =
      false) ∧
    (∀ now k, _is_cache_valid (WeatherApiClient_init wa_key) now k =
      false) ∧
    (∀ resort_name now lat lon netW netF netWA,
      get_resort_snow_data resort_name owm_key wa_key now lat lon netW netF
          netWA =
        { OpenWeatherMapClient_get_snow_data
            (OpenWeatherMapClient_init owm_key) wa_key now lat lon netW netF
            netWA with resort := some resort_name }) ∧
    (∀ (s : Settings) now resort_name lat lon primary net,
      verify_with_secondary_source s wa_key now resort_name lat lon primary
          net =
        match WeatherApiClient_get_snow_data (WeatherApiClient_init wa_key)
            now lat lon net with
        | .error _ => (false, none)
        | .ok sd =>
          if |primary - sd.snow_inches| ≤ s.VERIFICATION_THRESHOLD then
            (true, some { sd with resort := some resort_name })
          else (false, some { sd with resort := some resort_name })) ∧
    (∀ now endpoint params net max_retries retry_delay, 0 < max_retries →
      0 < (_make_request (OpenWeatherMapClient_init owm_key) now endpoint
          params net max_retries retry_delay).network_calls ∧
      0 < (_make_request (WeatherApiClient_init wa_key) now endpoint params
          net max_retries retry_delay).network_calls) := by
  refine ⟨fun _ => ⟨rfl, rfl⟩, fun _ => ⟨rfl, rfl⟩, fun _ _ => rfl,
    fun _ _ => rfl, fun _ _ _ _ _ _ _ => rfl, fun _ _ _ _ _ _ _ => rfl, ?_⟩
  intro now endpoint params net max_retries retry_delay hmr
  constructor <;>
  · unfold _make_request
    rw [if_neg (by simp [_is_cache_valid, OpenWeatherMapClient_init,
      WeatherApiClient_init, WeatherAPIClient.init])]
    exact requestLoop_calls_pos _ now _ net max_retries retry_delay 0
      max_retries none hmr

/-- Witness for C9: on a fresh client the first `_make_request` performs
a network attempt. -/
theorem entry_points_fresh_clients_witness :
    0 < (_make_request (OpenWeatherMapClient_init "ok") 0 "weather" []
        (fun _ => .failure 3) 3 1).network_calls ∧
    0 < (_make_request (WeatherApiClient_init "wk") 0 "weather" []
        (fun _ => .failure 3) 3 1).network_calls :=
  (entry_points_fresh_clients "ok" "wk").2.2.2.2.2.2 0 "weather" []
    (fun _ => .failure 3) 3 1 (by omega)

/-- C10: when the primary path fails and the fallback fetch through the
secondary source succeeds, `OpenWeatherMapClient.get_snow_data` returns
the fallback-labelled record with `forecast_snow = 0`, so the downstream
48-hour total equals the current-window amount alone. -/
theorem owm_fallback_zero_forecast (c : WeatherAPIClient) (wa_key : String)
    (now : ℕ) (lat lon : ℚ) (netW netF netWA : ℕ → HttpOutcome)
    (e : PyError) (sd : WASnowData)
    (hfail : owm_primary_path c now lat lon netW netF = .error e)
    (hok : WeatherApiClient_get_snow_data (WeatherApiClient_init wa_key) now
      lat lon netWA = .ok sd) :
    OpenWeatherMapClient_get_snow_data c wa_key now lat lon netW netF netWA
      = ⟨.num sd.snow_inches, .num 0, sd.current_temp, sd.conditions, now,
         "Fallback: WeatherAPI.com", none⟩ ∧
    (OpenWeatherMapClient_get_snow_data c wa_key now lat lon netW netF
        netWA).forecast_snow = .num 0 ∧
    (OpenWeatherMapClient_get_snow_data c wa_key now lat lon netW netF
        netWA).source = "Fallback: WeatherAPI.com" ∧
    (∀ q : ℚ,
      (OpenWeatherMapClient_get_snow_data c wa_key now lat lon netW netF
          netWA).current_snow = .num q →
      (calculate_time_window_data q 0).total_48h =
        (calculate_time_window_data q 0).current_24h) := by
  have hmain : OpenWeatherMapClient_get_snow_data c wa_key now lat lon netW
      netF netWA = ⟨.num sd.snow_inches, .num 0, sd.current_temp,
        sd.conditions, now, "Fallback: WeatherAPI.com", none⟩ := by
    unfold OpenWeatherMapClient_get_snow_data
    rw [hfail, hok]
  refine ⟨hmain, by rw [hmain], by rw [hmain], ?_⟩
  intro q _
  simp [calculate_time_window_data]

/-- Witness for C10: primary endpoints failing (transport error 1) and a
minimal successful secondary payload give the fallback-labelled record. -/
theorem owm_fallback_zero_forecast_witness :
    (OpenWeatherMapClient_get_snow_data (OpenWeatherMapClient_init "ok")
        "wk" 0 40 111 (fun _ => .failure 1) (fun _ => .failure 1)
        (fun _ => .success (.obj []))).source = "Fallback: WeatherAPI.com"
      ∧
    (OpenWeatherMapClient_get_snow_data (OpenWeatherMapClient_init "ok")
        "wk" 0 40 111 (fun _ => .failure 1) (fun _ => .failure 1)
        (fun _ => .success (.obj []))).forecast_snow = .num 0 :=
  ⟨((owm_fallback_zero_forecast (OpenWeatherMapClient_init "ok") "wk" 0 40
      111 (fun _ => .failure 1) (fun _ => .failure 1)
      (fun _ => .success (.obj [])) (.requestException 1)
      ⟨0, (0 : ℚ) / (2.54 : ℚ), .num 0, .str "", 0, "WeatherAPI.com", none⟩
      rfl rfl).2.2.1),
   ((owm_fallback_zero_forecast (OpenWeatherMapClient_init "ok") "wk" 0 40
      111 (fun _ => .failure 1) (fun _ => .failure 1)
      (fun _ => .success (.obj [])) (.requestException 1)
      ⟨0, (0 : ℚ) / (2.54 : ℚ), .num 0, .str "", 0, "WeatherAPI.com", none⟩
      rfl rfl).2.1)⟩

/-- C6 (code-bug evidence): on a current-conditions payload whose `snow`
field is a scalar — one of the shapes the claim says must fall back to
the generic field and stay numeric — the extraction raises
`AttributeError` (Python: `float` has no `.get`) instead of producing
`current_snow = 5`; and on the nested shape `snow = {"1h": 0}` the
falsy-triggered fallback rebinds `current_snow` to the whole dict, a
non-numeric value. -/
theorem owm_scalar_snow_extraction_raises :
    owm_extract 0 (.obj [("snow", .num 5)]) (.obj [("list", .arr [])]) =
      .error .attributeError ∧
    owm_extract 0 (.obj [("snow", .obj [("1h", .num 0)])])
        (.obj [("list", .arr [])]) =
      .ok ⟨.obj [("1h", .num 0)], .num 0, .num 0, .str "", 0,
           "OpenWeatherMap (Free API)", none⟩ :=
  ⟨rfl, rfl⟩
